import Mathlib

/-!
Shallow embedding of `src/index.js` of the mnyasin26/cloud-run repository:
a Hapi HTTP server that classifies an uploaded image with a TensorFlow.js
model, stores each outcome in Firestore, and (per the spec) lists stored
outcomes.  JavaScript numbers are modelled as `ℚ`, byte buffers as
`List Nat`, thrown JS errors as the `JsError` structure carried in
`Except`, and the external collaborators (JPEG decoder, model inference,
Firestore, Cloud Storage) as explicit function parameters, so that every
definition below is executable.  Definitions come first, theorems after.
-/

namespace CloudRun

/-- A thrown JavaScript error value: its `name`, its `message`, and the
`statusCode` own-property when present.  The `InputError` class of
`src/index.js` (lines 12-18) sets `name = "InputError"` and
`statusCode = 400`; plain library errors carry no `statusCode`. -/
structure JsError where
  name : String
  message : String
  statusCode : Option Nat
deriving DecidableEq, Repr

/-- Constructor of the `InputError` class (src/index.js lines 12-18):
`name` is set to the string InputError and `statusCode` to 400. -/
def InputError (message : String) : JsError :=
  ⟨"InputError", message, some 400⟩

/-- The `{label, suggestion}` object returned by `predictClassification`. -/
structure Classification where
  label : String
  suggestion : String
deriving DecidableEq, Repr

/-- `Math.max(...score)` for a nonempty score vector.  (On the empty
vector JavaScript yields negative infinity, which the threshold in
`classify` treats the same way as the default `0` used here: both are
at most 50; all theorems about the maximum assume a nonempty vector.) -/
def maxScore : List ℚ → ℚ
  | [] => 0
  | s :: rest => rest.foldl max s

/-- The decision logic of `predictClassification` (src/index.js lines
73-80): confidence is the maximum raw score times 100; label is
Non-cancer when confidence is at most 50 and Cancer otherwise; the
suggestion is chosen by comparing the label with the string Cancer. -/
def classify (score : List ℚ) : Classification :=
  let confidenceScore := maxScore score * 100
  let label := if confidenceScore ≤ 50 then "Non-cancer" else "Cancer"
  let suggestion :=
    if label = "Cancer" then "Segera periksa ke dokter!"
    else "Penyakit kanker tidak terdeteksi."
  ⟨label, suggestion⟩

/-! ## Preprocessor (src/index.js lines 66-70): the tensor chain
`tf.node.decodeJpeg(image).resizeNearestNeighbor([224,224]).expandDims().toFloat()` -/

/-- A raw uploaded image byte buffer (a Node `Buffer`). -/
def ImageBytes : Type := List Nat

/-- A rank-3 integer tensor, as produced by `tf.node.decodeJpeg`:
height by width by channels, with integer (uint8) pixel values. -/
structure Tensor3 where
  height : Nat
  width : Nat
  channels : Nat
  val : Nat → Nat → Nat → ℤ

/-- A rank-4 integer tensor (after `expandDims`). -/
structure Tensor4I where
  batch : Nat
  height : Nat
  width : Nat
  channels : Nat
  val : Nat → Nat → Nat → Nat → ℤ

/-- A rank-4 floating-point tensor (after `toFloat`); float values are
modelled by `ℚ`. -/
structure Tensor4F where
  batch : Nat
  height : Nat
  width : Nat
  channels : Nat
  val : Nat → Nat → Nat → Nat → ℚ

/-- Source index of nearest-neighbor resizing (TensorFlow semantics with
default flags, as used by `resizeNearestNeighbor`): output index `i` of
an axis of size `outSize` samples input index `⌊i * inSize / outSize⌋`,
clamped into the input range. -/
def nnSourceIndex (inSize outSize i : Nat) : Nat :=
  min (i * inSize / outSize) (inSize - 1)

/-- `t.resizeNearestNeighbor([newH, newW])`: every output pixel is a
pixel of the input, selected by `nnSourceIndex` on each spatial axis;
channels are carried through unchanged. -/
def resizeNearestNeighbor (newH newW : Nat) (t : Tensor3) : Tensor3 :=
  ⟨newH, newW, t.channels,
    fun y x c => t.val (nnSourceIndex t.height newH y) (nnSourceIndex t.width newW x) c⟩

/-- `t.expandDims()`: insert a leading batch axis of size 1. -/
def expandDims (t : Tensor3) : Tensor4I :=
  ⟨1, t.height, t.width, t.channels, fun _ y x c => t.val y x c⟩

/-- `t.toFloat()`: cast every integer entry to floating point; nothing
but the type conversion happens to the values. -/
def toFloat (t : Tensor4I) : Tensor4F :=
  ⟨t.batch, t.height, t.width, t.channels, fun b y x c => (t.val b y x c : ℚ)⟩

/-- The preprocessing applied to the decoded image inside
`predictClassification` (src/index.js lines 66-70), in source order:
resize to 224 by 224 with nearest-neighbor interpolation, add the batch
dimension, convert to float. -/
def preprocessDecoded (decoded : Tensor3) : Tensor4F :=
  toFloat (expandDims (resizeNearestNeighbor 224 224 decoded))

/-- `tf.node.decodeJpeg` applied to the destructured `image` payload
field: the library validates its argument and throws when the field is
absent (`undefined`); actual JPEG decoding is the external collaborator
`dec`, which throws on bytes that are not a valid JPEG. -/
def decodeJpeg (dec : ImageBytes → Except JsError Tensor3) :
    Option ImageBytes → Except JsError Tensor3
  | none => Except.error ⟨"Error", "pass in either a Uint8Array or an encoded image", none⟩
  | some bytes => dec bytes

/-! ## predictClassification (src/index.js lines 64-85) -/

/-- The body of the `try` block of `predictClassification`: decode the
image, preprocess it, run the model (`mp` combines `model.predict` and
`prediction.data()`), and apply the decision rule to the score vector.
Any thrown error propagates. -/
def predictClassificationRaw (dec : ImageBytes → Except JsError Tensor3)
    (mp : Tensor4F → Except JsError (List ℚ)) (image : Option ImageBytes) :
    Except JsError Classification := do
  let decoded ← decodeJpeg dec image
  let tensor := preprocessDecoded decoded
  let score ← mp tensor
  pure (classify score)

/-- `predictClassification` (src/index.js lines 64-85): the `try` block
above wrapped in the `catch` that replaces every thrown error by
`new InputError("Terjadi kesalahan dalam melakukan prediksi")`. -/
def predictClassification (dec : ImageBytes → Except JsError Tensor3)
    (mp : Tensor4F → Except JsError (List ℚ)) (image : Option ImageBytes) :
    Except JsError Classification :=
  match predictClassificationRaw dec mp image with
  | Except.ok r => Except.ok r
  | Except.error _ => Except.error (InputError "Terjadi kesalahan dalam melakukan prediksi")

/-! ## Result recording and the predict handler
(src/index.js lines 57-61 `storeData`, 87-107 `predict`) -/

/-- The persisted classification outcome: the `data` object assembled in
the `predict` handler (src/index.js lines 93-98). -/
structure OutcomeData where
  id : String
  result : String
  suggestion : String
  createdAt : String
deriving DecidableEq, Repr

/-- A write performed against the Firestore `predictions` collection:
`predictCollection.doc(key).set(data)`. -/
structure FirestoreWrite where
  key : String
  data : OutcomeData
deriving DecidableEq, Repr

/-- `storeData(id, data)` (src/index.js lines 57-61): a document write
in the `predictions` collection under the document key `id`. -/
def storeData (id : String) (data : OutcomeData) : FirestoreWrite :=
  ⟨id, data⟩

/-- The parsed multipart payload of a `/predict` request.  The `image`
field is `none` when the form carries no such field (the destructured
JavaScript value is then `undefined`). -/
structure Payload where
  image : Option ImageBytes

/-- The body of an HTTP response produced by the server. -/
inductive ResponseBody where
  /-- `{status: "success", message, data}` of the predict handler. -/
  | success (message : String) (data : OutcomeData)
  /-- `{status: "fail", message}` of the onPreResponse extension. -/
  | fail (message : String)
deriving DecidableEq, Repr

/-- An HTTP response: status code and JSON body. -/
structure HttpResponse where
  code : Nat
  body : ResponseBody
deriving DecidableEq, Repr

/-- The `predict` handler (src/index.js lines 87-107).  `request.payload`
is `none` when Hapi parsed an empty body (JavaScript `null`), in which
case the destructuring on line 88 throws a TypeError; otherwise there is
no validation of the image field, which is handed to
`predictClassification` as is.  `storeRes` is the outcome of the awaited
Firestore write, `freshId` the value of `crypto.randomUUID()` and
`nowIso` the value of `new Date().toISOString()`.  On success the
handler yields the 201 response and the performed Firestore write. -/
def predict (dec : ImageBytes → Except JsError Tensor3)
    (mp : Tensor4F → Except JsError (List ℚ)) (storeRes : Except JsError Unit) :
    Option Payload → String → String → Except JsError (HttpResponse × FirestoreWrite)
  | none, _, _ =>
    Except.error ⟨"TypeError", "Cannot destructure property image of request.payload as it is null", none⟩
  | some p, freshId, nowIso =>
    match predictClassification dec mp p.image with
    | Except.error e => Except.error e
    | Except.ok cls =>
      let data : OutcomeData := ⟨freshId, cls.label, cls.suggestion, nowIso⟩
      match storeRes with
      | Except.error e => Except.error e
      | Except.ok _ =>
        Except.ok
          (⟨201, ResponseBody.success "Model is predicted successfully" data⟩,
           storeData freshId data)

/-- The `onPreResponse` extension (src/index.js lines 169-188) applied
to the outcome of a handler.  A thrown `InputError` keeps its own
`statusCode` (400); any other thrown error has been wrapped by Hapi into
a Boom with `output.statusCode` 500, and its message is reported. -/
def onPreResponse (result : Except JsError (HttpResponse × FirestoreWrite)) :
    HttpResponse :=
  match result with
  | Except.ok (r, _) => r
  | Except.error e =>
    match e with
    | ⟨"InputError", msg, some sc⟩ => ⟨sc, ResponseBody.fail msg⟩
    | _ => ⟨500, ResponseBody.fail e.message⟩

/-- A request to `POST /predict` as served end to end: the handler
followed by the `onPreResponse` error translation. -/
def handlePredict (dec : ImageBytes → Except JsError Tensor3)
    (mp : Tensor4F → Except JsError (List ℚ)) (storeRes : Except JsError Unit)
    (payload : Option Payload) (freshId nowIso : String) : HttpResponse :=
  onPreResponse (predict dec mp storeRes payload freshId nowIso)

/-! ## Route table (src/index.js lines 132-146) -/

/-- One entry of the Hapi route table: path, method, and the payload
byte limit when the route configures one. -/
structure Route where
  path : String
  method : String
  maxBytes : Option Nat
deriving DecidableEq, Repr

/-- The `routes` array (src/index.js lines 132-146): it registers the
single route `POST /predict` with a 1,000,000-byte payload limit. -/
def routes : List Route :=
  [⟨"/predict", "POST", some 1000000⟩]

/-! Concrete collaborators used by witnesses: a decoder that accepts
anything, a decoder that rejects anything, and a model returning the
single raw score 1. -/

def decOk : ImageBytes → Except JsError Tensor3 :=
  fun _ => Except.ok ⟨1, 1, 3, fun _ _ _ => 0⟩

def decBad : ImageBytes → Except JsError Tensor3 :=
  fun _ => Except.error ⟨"Error", "not a jpeg", none⟩

def mpOne : Tensor4F → Except JsError (List ℚ) :=
  fun _ => Except.ok [(1:ℚ)]

/-! ## Artifact fetching and startup
(src/index.js lines 20-29 `downloadFile`, 32-54 `loadModel`,
148-151 `tls`, 153-192 the startup IIFE) -/

/-- The constant `BUCKET_NAME` (src/index.js line 20). -/
def BUCKET_NAME : String := "model_mlgc_yasin"

/-- The constant `MODEL_PATH` (src/index.js line 21). -/
def MODEL_PATH : String := "model.json"

/-- The `modelWeights` array (src/index.js lines 41-46). -/
def modelWeights : List String :=
  ["group1-shard1of4.bin", "group1-shard2of4.bin",
   "group1-shard3of4.bin", "group1-shard4of4.bin"]

/-- The local model cache directory `path.join(__dirname, "model")`,
with `__dirname` taken as the root. -/
def modelDir : String := "model"

/-- `path.join(modelDir, name)`. -/
def joinModelDir (name : String) : String := modelDir ++ "/" ++ name

/-- An observable side effect of module load and the startup IIFE, in
the order the process performs them. -/
inductive StartAction where
  /-- `fs.mkdirSync(d)`. -/
  | mkdirDir (d : String)
  /-- a completed `downloadFile(bucket, src, dest)`. -/
  | downloadFile (bucket src dest : String)
  /-- a completed `tf.loadGraphModel` on the local topology file. -/
  | loadGraphModel (p : String)
  /-- `Hapi.server({...})`. -/
  | createServer
  /-- `server.app.model = model`. -/
  | setAppModel
  /-- `server.route(routes)` and the `onPreResponse` extension. -/
  | registerRoutes
  /-- `await server.start()`. -/
  | serverStart
deriving DecidableEq, Repr

/-- The sequential `await downloadFile(...)` calls of `loadModel`, each
fetching `f` from the bucket into `path.join(modelDir, f)`; the sequence
stops at the first transfer that fails, and that error propagates. -/
def downloadSeq (download : String → Except JsError Unit) :
    List String → List StartAction × Option JsError
  | [] => ([], none)
  | f :: rest =>
    match download f with
    | Except.error e => ([], some e)
    | Except.ok _ =>
      let next := downloadSeq download rest
      (StartAction.downloadFile BUCKET_NAME f (joinModelDir f) :: next.1, next.2)

/-- `loadModel` (src/index.js lines 32-54) as the actions it performs
and the error aborting it, if any.  The file system is the pair of the
existing directories `fsDirs` and the existing files `fsFiles`; the
function consults only `fs.existsSync(modelDir)` (to decide whether to
create the directory) and never consults `fsFiles`: the topology file
`model.json` and every weight shard are downloaded unconditionally, in
source order, before `tf.loadGraphModel` runs on the local topology
path.  `download f` is the outcome of the transfer of remote object `f`
and `loadGraph` the outcome of `tf.loadGraphModel`. -/
def loadModel (fsDirs fsFiles : List String)
    (download : String → Except JsError Unit) (loadGraph : Except JsError Unit) :
    List StartAction × Option JsError :=
  let mkActs := if modelDir ∈ fsDirs then [] else [StartAction.mkdirDir modelDir]
  let dl := downloadSeq download (MODEL_PATH :: modelWeights)
  match dl.2 with
  | some e => (mkActs ++ dl.1, some e)
  | none =>
    match loadGraph with
    | Except.error e => (mkActs ++ dl.1, some e)
    | Except.ok _ =>
      (mkActs ++ dl.1 ++ [StartAction.loadGraphModel (joinModelDir MODEL_PATH)], none)

/-- Module load plus the startup IIFE (src/index.js lines 148-192) as
the sequence of observable actions.  The two `fs.readFileSync` calls for
the TLS key and certificate run at module load: if either throws, the
module fails and the IIFE never runs.  Inside the IIFE the Hapi server
object is created, then `await loadModel()`: if it rejects, the async
function aborts and nothing further happens; otherwise the model is
attached, the routes registered, and only then `server.start` is
awaited. -/
def startup (tlsKey tlsCert : Except JsError Unit) (fsDirs fsFiles : List String)
    (download : String → Except JsError Unit) (loadGraph : Except JsError Unit) :
    List StartAction :=
  match tlsKey with
  | Except.error _ => []
  | Except.ok _ =>
    match tlsCert with
    | Except.error _ => []
    | Except.ok _ =>
      let lm := loadModel fsDirs fsFiles download loadGraph
      match lm.2 with
      | some _ => StartAction.createServer :: lm.1
      | none =>
        StartAction.createServer ::
          (lm.1 ++ [StartAction.setAppModel, StartAction.registerRoutes,
            StartAction.serverStart])

/-! # Theorems -/

/-! Facts about `List.foldl max`, used to identify `maxScore` with the
maximum element of the vector. -/

theorem le_foldl_max (x : ℚ) (xs : List ℚ) : x ≤ xs.foldl max x := by
  induction xs generalizing x with
  | nil => exact le_refl x
  | cons y ys ih => exact le_trans (le_max_left x y) (ih (max x y))

theorem foldl_max_mem (x : ℚ) (xs : List ℚ) :
    xs.foldl max x = x ∨ xs.foldl max x ∈ xs := by
  induction xs generalizing x with
  | nil => exact Or.inl rfl
  | cons y ys ih =>
    rcases ih (max x y) with h | h
    · rcases max_choice x y with hm | hm
      · exact Or.inl (by rw [List.foldl_cons, h, hm])
      · exact Or.inr (by rw [List.foldl_cons, h, hm]; exact List.mem_cons_self y ys)
    · exact Or.inr (List.mem_cons_of_mem y h)

theorem mem_le_foldl_max (x a : ℚ) (xs : List ℚ) (ha : a ∈ xs) :
    a ≤ xs.foldl max x := by
  induction xs generalizing x with
  | nil => cases ha
  | cons y ys ih =>
    rcases List.mem_cons.mp ha with h | h
    · subst h
      exact le_trans (le_max_right x a) (le_foldl_max (max x a) ys)
    · exact ih (max x y) h

theorem maxScore_mem (score : List ℚ) (h : score ≠ []) :
    maxScore score ∈ score := by
  cases score with
  | nil => exact absurd rfl h
  | cons s rest =>
    show rest.foldl max s ∈ s :: rest
    rcases foldl_max_mem s rest with h₁ | h₁
    · rw [h₁]; exact List.mem_cons_self s rest
    · exact List.mem_cons_of_mem s h₁

theorem maxScore_is_ub (score : List ℚ) (a : ℚ) (ha : a ∈ score) :
    a ≤ maxScore score := by
  cases score with
  | nil => cases ha
  | cons s rest =>
    rcases List.mem_cons.mp ha with h | h
    · exact h ▸ le_foldl_max s rest
    · exact mem_le_foldl_max s a rest h

/-- Claim C1.  For every raw score vector returned by the model, the
classifier computes the confidence as the maximum element of the vector
times 100, and returns label Non-cancer with suggestion "Penyakit kanker
tidak terdeteksi." whenever that confidence is at most 50 (the boundary
value 50 included), and label Cancer with suggestion "Segera periksa ke
dokter!" whenever it exceeds 50. -/
theorem classify_decision_rule (score : List ℚ) (h : score ≠ []) :
    (maxScore score ∈ score ∧ ∀ a ∈ score, a ≤ maxScore score) ∧
    (maxScore score * 100 ≤ 50 →
      classify score = ⟨"Non-cancer", "Penyakit kanker tidak terdeteksi."⟩) ∧
    (50 < maxScore score * 100 →
      classify score = ⟨"Cancer", "Segera periksa ke dokter!"⟩) := by
  refine ⟨⟨maxScore_mem score h, fun a ha => maxScore_is_ub score a ha⟩, ?_, ?_⟩
  · intro hle
    simp only [classify, if_pos hle]
    simp
  · intro hlt
    simp only [classify, if_neg (not_le.mpr hlt)]
    simp

/-- Witness for C1: the score vector with entries one quarter and one
half has maximum one half, hence confidence exactly 50, and is labelled
Non-cancer (the inclusive boundary case of the spec). -/
theorem classify_decision_rule_witness :
    classify [(1:ℚ)/4, 1/2] = ⟨"Non-cancer", "Penyakit kanker tidak terdeteksi."⟩ :=
  (classify_decision_rule [(1:ℚ)/4, 1/2] (by decide)).2.1 (by norm_num [maxScore])

/-- Claim C4.  For every decoded image, the preprocessor produces the
tensor obtained by exactly these steps in order: resize to 224 by 224
with nearest-neighbor interpolation, add a leading batch dimension of
size 1, and convert to floating point — so the result has shape
1 x 224 x 224 x channels and every entry is the unmodified (unscaled)
integer pixel value of the decoded image at the nearest-neighbor source
coordinates, cast to float. -/
theorem preprocess_shape_and_values (decoded : Tensor3) (y x c : Nat) :
    (preprocessDecoded decoded).batch = 1 ∧
    (preprocessDecoded decoded).height = 224 ∧
    (preprocessDecoded decoded).width = 224 ∧
    (preprocessDecoded decoded).channels = decoded.channels ∧
    (preprocessDecoded decoded).val 0 y x c =
      ((decoded.val (nnSourceIndex decoded.height 224 y)
          (nnSourceIndex decoded.width 224 x) c : ℤ) : ℚ) :=
  ⟨rfl, rfl, rfl, rfl, rfl⟩

/-- Claim C5.  Every failure raised inside the classification step
(image decoding, model invocation, or score extraction) is caught and
re-signaled as the one fixed client-input-class error: an `InputError`
with status code 400 and the generic message, with the underlying cause
`e` discarded — the result does not depend on `e`, so the caller never
observes which step failed. -/
theorem predictClassification_masks_cause
    (dec : ImageBytes → Except JsError Tensor3)
    (mp : Tensor4F → Except JsError (List ℚ)) (image : Option ImageBytes)
    (e : JsError) (h : predictClassificationRaw dec mp image = Except.error e) :
    predictClassification dec mp image =
      Except.error ⟨"InputError", "Terjadi kesalahan dalam melakukan prediksi", some 400⟩ := by
  unfold predictClassification
  rw [h]
  rfl

/-- Witness for C5: a decoder that rejects its input (as on a non-JPEG
buffer) makes the raw pipeline fail, and `predictClassification` then
returns exactly the fixed 400 InputError. -/
theorem predictClassification_masks_cause_witness :
    predictClassification (fun _ => Except.error ⟨"Error", "invalid jpeg", none⟩)
        (fun _ => Except.ok [(1:ℚ)]) (some []) =
      Except.error ⟨"InputError", "Terjadi kesalahan dalam melakukan prediksi", some 400⟩ :=
  predictClassification_masks_cause
    (fun _ => Except.error ⟨"Error", "invalid jpeg", none⟩)
    (fun _ => Except.ok [(1:ℚ)]) (some []) ⟨"Error", "invalid jpeg", none⟩ rfl

/-- Claim C10.  For every decoder, model and image input,
`predictClassification` either returns a `{label, suggestion}` pair or
fails; and every error it can return is exactly the `InputError` with
status code 400 and message "Terjadi kesalahan dalam melakukan
prediksi" — no other error value can escape it. -/
theorem predictClassification_error_is_fixed_InputError
    (dec : ImageBytes → Except JsError Tensor3)
    (mp : Tensor4F → Except JsError (List ℚ)) (image : Option ImageBytes) :
    (∃ c : Classification, predictClassification dec mp image = Except.ok c) ∨
    predictClassification dec mp image =
      Except.error ⟨"InputError", "Terjadi kesalahan dalam melakukan prediksi", some 400⟩ := by
  unfold predictClassification
  cases predictClassificationRaw dec mp image with
  | ok r => exact Or.inl ⟨r, rfl⟩
  | error e => exact Or.inr rfl

/-- Claim C7.  For every request to `POST /predict` in which
classification and persistence succeed, the handler responds with HTTP
status 201 and body `{status: success, message: "Model is predicted
successfully", data}` where `data` is the newly assembled outcome
(generated id, classification result and suggestion, timestamp). -/
theorem predict_success_201 (dec : ImageBytes → Except JsError Tensor3)
    (mp : Tensor4F → Except JsError (List ℚ)) (p : Payload)
    (freshId nowIso : String) (cls : Classification)
    (hc : predictClassification dec mp p.image = Except.ok cls) :
    predict dec mp (Except.ok ()) (some p) freshId nowIso =
      Except.ok
        (⟨201, ResponseBody.success "Model is predicted successfully"
            ⟨freshId, cls.label, cls.suggestion, nowIso⟩⟩,
         storeData freshId ⟨freshId, cls.label, cls.suggestion, nowIso⟩) := by
  simp only [predict, hc]

/-- Witness for C7: with a decoder that accepts the payload and a model
returning score 1 (confidence 100), the handler returns 201 with the
Cancer outcome and stores it. -/
theorem predict_success_201_witness :
    predict decOk mpOne (Except.ok ()) (some ⟨some []⟩) "id-1" "2024-05-01T00:00:00.000Z" =
      Except.ok
        (⟨201, ResponseBody.success "Model is predicted successfully"
            ⟨"id-1", "Cancer", "Segera periksa ke dokter!", "2024-05-01T00:00:00.000Z"⟩⟩,
         storeData "id-1" ⟨"id-1", "Cancer", "Segera periksa ke dokter!", "2024-05-01T00:00:00.000Z"⟩) :=
  predict_success_201 decOk mpOne ⟨some []⟩ "id-1" "2024-05-01T00:00:00.000Z"
    ⟨"Cancer", "Segera periksa ke dokter!"⟩
    (by
      show predictClassification decOk mpOne (some []) = _
      rw [show predictClassification decOk mpOne (some []) =
        Except.ok (classify [(1:ℚ)]) from rfl]
      norm_num [classify, maxScore])

/-- Claim C9.  For every successful prediction, the Firestore document
key under which the outcome is stored equals the `id` field inside the
stored record, and the stored record is field-for-field the `data`
object of the 201 response body. -/
theorem predict_write_matches_response (dec : ImageBytes → Except JsError Tensor3)
    (mp : Tensor4F → Except JsError (List ℚ)) (storeRes : Except JsError Unit)
    (payload : Option Payload) (freshId nowIso : String)
    (resp : HttpResponse) (w : FirestoreWrite)
    (h : predict dec mp storeRes payload freshId nowIso = Except.ok (resp, w)) :
    w.key = w.data.id ∧ resp.code = 201 ∧
    resp.body = ResponseBody.success "Model is predicted successfully" w.data := by
  cases payload with
  | none => simp [predict] at h
  | some p =>
    simp only [predict] at h
    cases hcls : predictClassification dec mp p.image with
    | error e => rw [hcls] at h; simp at h
    | ok cls =>
      rw [hcls] at h
      cases storeRes with
      | error e => simp at h
      | ok u =>
        simp only [Except.ok.injEq, Prod.mk.injEq] at h
        obtain ⟨h₁, h₂⟩ := h
        rw [← h₁, ← h₂]
        exact ⟨rfl, rfl, rfl⟩

/-- Witness for C9: on the concrete successful request of the C7
witness, the stored record carries its own document key and equals the
response data. -/
theorem predict_write_matches_response_witness :
    ("id-1" : String) = "id-1" ∧ (201 : Nat) = 201 ∧
    ResponseBody.success "Model is predicted successfully"
        ⟨"id-1", "Cancer", "Segera periksa ke dokter!", "t-1"⟩ =
      ResponseBody.success "Model is predicted successfully"
        ⟨"id-1", "Cancer", "Segera periksa ke dokter!", "t-1"⟩ :=
  predict_write_matches_response decOk mpOne (Except.ok ()) (some ⟨some []⟩)
    "id-1" "t-1"
    ⟨201, ResponseBody.success "Model is predicted successfully"
        ⟨"id-1", "Cancer", "Segera periksa ke dokter!", "t-1"⟩⟩
    ⟨"id-1", ⟨"id-1", "Cancer", "Segera periksa ke dokter!", "t-1"⟩⟩
    (by
      have hc : predictClassification decOk mpOne (some []) =
          Except.ok (classify [(1:ℚ)]) := rfl
      have hcls : classify [(1:ℚ)] =
          ⟨"Cancer", "Segera periksa ke dokter!"⟩ := by norm_num [classify, maxScore]
      simp only [predict, hc, hcls, storeData])

/-- Counterexample to claim C6 as stated: a request whose payload is
missing entirely does not yield a 400 InputError response — the
destructuring of the null payload throws a TypeError, which Hapi
surfaces as a 500 response. -/
theorem predict_null_payload_is_500_not_400 :
    (handlePredict decBad mpOne (Except.ok ()) none "id-0" "t-0").code = 500 ∧
    (handlePredict decBad mpOne (Except.ok ()) none "id-0" "t-0").code ≠ 400 := by
  decide

/-- Claim C6 as amended.  A request whose multipart payload is present
but lacks the image field yields the 400 response
`{status: fail, message: "Terjadi kesalahan dalam melakukan prediksi"}`
produced by `predictClassification` itself — the same code path and the
very same response as an image-decode failure, not a distinct one
(a request with no payload at all instead surfaces as a 500 framework
error). -/
theorem predict_missing_image_same_path_as_decode_failure
    (dec : ImageBytes → Except JsError Tensor3)
    (mp : Tensor4F → Except JsError (List ℚ)) (storeRes : Except JsError Unit)
    (freshId nowIso : String) (img : ImageBytes) (e : JsError)
    (hdec : dec img = Except.error e) :
    handlePredict dec mp storeRes (some ⟨none⟩) freshId nowIso =
      ⟨400, ResponseBody.fail "Terjadi kesalahan dalam melakukan prediksi"⟩ ∧
    handlePredict dec mp storeRes (some ⟨some img⟩) freshId nowIso =
      handlePredict dec mp storeRes (some ⟨none⟩) freshId nowIso := by
  have hd : decodeJpeg dec (some img) = Except.error e := by
    rw [show decodeJpeg dec (some img) = dec img from rfl, hdec]
  have hraw : predictClassificationRaw dec mp (some img) = Except.error e := by
    unfold predictClassificationRaw
    rw [hd]
    rfl
  have h1 : predictClassification dec mp (some img) =
      Except.error (InputError "Terjadi kesalahan dalam melakukan prediksi") := by
    unfold predictClassification
    rw [hraw]
  refine ⟨rfl, ?_⟩
  show onPreResponse (predict dec mp storeRes (some ⟨some img⟩) freshId nowIso) = _
  simp only [predict, h1]
  rfl

/-- Witness for the amended C6: with the concrete rejecting decoder, a
payload without an image field gets the 400 generic-failure response,
identical to the response for a payload whose image fails to decode. -/
theorem predict_missing_image_same_path_witness :
    handlePredict decBad mpOne (Except.ok ()) (some ⟨none⟩) "id-0" "t-0" =
      ⟨400, ResponseBody.fail "Terjadi kesalahan dalam melakukan prediksi"⟩ ∧
    handlePredict decBad mpOne (Except.ok ()) (some ⟨some []⟩) "id-0" "t-0" =
      handlePredict decBad mpOne (Except.ok ()) (some ⟨none⟩) "id-0" "t-0" :=
  predict_missing_image_same_path_as_decode_failure decBad mpOne (Except.ok ())
    "id-0" "t-0" [] ⟨"Error", "not a jpeg", none⟩ rfl

/-- Claim C2, route-table evaluation: the route table of `src/index.js`
registers only `POST /predict`; no `/predict/histories` route exists, so
a `POST /predict/histories` request is not dispatched to
`postPredictHistoriesHandler` (which is moreover defined but never
wired, and calls a `getAllData` function that is defined nowhere). -/
theorem routes_lack_predict_histories :
    routes.map Route.path = ["/predict"] ∧
    "/predict/histories" ∉ routes.map Route.path := by
  exact ⟨rfl, by decide⟩

/-- Counterexample to claim C3 as stated: on a startup whose cache
directory already exists and already holds the topology file and all
four weight shards, `loadModel` still downloads the topology file (and
every shard) from the bucket — cached artifact files are not reused to
skip downloads. -/
theorem loadModel_redownloads_cached_files :
    StartAction.downloadFile "model_mlgc_yasin" "model.json" "model/model.json" ∈
      (loadModel ["model"]
        ["model/model.json", "model/group1-shard1of4.bin", "model/group1-shard2of4.bin",
         "model/group1-shard3of4.bin", "model/group1-shard4of4.bin"]
        (fun _ => Except.ok ()) (Except.ok ())).1 := by
  decide

/-- Claim C3 as amended.  At startup, `loadModel` creates the local
cache directory when (and only when) it does not yet exist, and then
unconditionally downloads the topology descriptor and every weight
shard from the remote bucket, in source order, regardless of which
files the cache already holds; it never consults the cached files. -/
theorem loadModel_downloads_unconditionally (fsDirs fsFiles : List String) :
    (loadModel fsDirs fsFiles (fun _ => Except.ok ()) (Except.ok ())).1 =
      (if modelDir ∈ fsDirs then [] else [StartAction.mkdirDir modelDir]) ++
      [StartAction.downloadFile BUCKET_NAME "model.json" "model/model.json",
       StartAction.downloadFile BUCKET_NAME "group1-shard1of4.bin" "model/group1-shard1of4.bin",
       StartAction.downloadFile BUCKET_NAME "group1-shard2of4.bin" "model/group1-shard2of4.bin",
       StartAction.downloadFile BUCKET_NAME "group1-shard3of4.bin" "model/group1-shard3of4.bin",
       StartAction.downloadFile BUCKET_NAME "group1-shard4of4.bin" "model/group1-shard4of4.bin",
       StartAction.loadGraphModel "model/model.json"] ∧
    (loadModel fsDirs fsFiles (fun _ => Except.ok ()) (Except.ok ())).2 = none := by
  have hds : downloadSeq (fun _ => Except.ok ()) (MODEL_PATH :: modelWeights) =
      ([StartAction.downloadFile BUCKET_NAME "model.json" "model/model.json",
        StartAction.downloadFile BUCKET_NAME "group1-shard1of4.bin" "model/group1-shard1of4.bin",
        StartAction.downloadFile BUCKET_NAME "group1-shard2of4.bin" "model/group1-shard2of4.bin",
        StartAction.downloadFile BUCKET_NAME "group1-shard3of4.bin" "model/group1-shard3of4.bin",
        StartAction.downloadFile BUCKET_NAME "group1-shard4of4.bin" "model/group1-shard4of4.bin"],
       none) := rfl
  constructor
  · simp [loadModel, hds]
    rfl
  · simp [loadModel, hds]

/-- Claim C8.  The process never serves without a successfully loaded
model: if the TLS key or certificate is unreadable at module load, or
any artifact download or the model load fails, then `server.start` is
never invoked; and in every execution in which `server.start` is
invoked, the model load has completed earlier in the action sequence. -/
theorem startup_never_serves_without_model
    (tlsKey tlsCert : Except JsError Unit) (fsDirs fsFiles : List String)
    (download : String → Except JsError Unit) (loadGraph : Except JsError Unit) :
    (((∃ e, tlsKey = Except.error e) ∨ (∃ e, tlsCert = Except.error e) ∨
        (loadModel fsDirs fsFiles download loadGraph).2 ≠ none) →
      StartAction.serverStart ∉ startup tlsKey tlsCert fsDirs fsFiles download loadGraph) ∧
    (StartAction.serverStart ∈ startup tlsKey tlsCert fsDirs fsFiles download loadGraph →
      ∃ l₁ l₂, startup tlsKey tlsCert fsDirs fsFiles download loadGraph =
          l₁ ++ StartAction.loadGraphModel (joinModelDir MODEL_PATH) :: l₂ ∧
        StartAction.serverStart ∈ l₂) := by
  have hno : StartAction.serverStart ∉ (loadModel fsDirs fsFiles download loadGraph).1 := by
    have hseq : ∀ files : List String,
        StartAction.serverStart ∉ (downloadSeq download files).1 := by
      intro files
      induction files with
      | nil => simp [downloadSeq]
      | cons f rest ih =>
        simp only [downloadSeq]
        cases download f with
        | error e => simp
        | ok u => simp [ih]

    unfold loadModel
    cases hd : (downloadSeq download (MODEL_PATH :: modelWeights)).2 with
    | some e =>
      simp only [hd]
      intro hmem
      rcases List.mem_append.mp hmem with h | h
      · rcases em (modelDir ∈ fsDirs) with hm | hm <;> simp [hm] at h
      · exact hseq _ h
    | none =>
      cases loadGraph with
      | error e =>
        simp only [hd]
        intro hmem
        rcases List.mem_append.mp hmem with h | h
        · rcases em (modelDir ∈ fsDirs) with hm | hm <;> simp [hm] at h
        · exact hseq _ h
      | ok u =>
        simp only [hd]
        intro hmem
        rcases List.mem_append.mp hmem with h | h
        · rcases List.mem_append.mp h with h₁ | h₁
          · rcases em (modelDir ∈ fsDirs) with hm | hm <;> simp [hm] at h₁
          · exact hseq _ h₁
        · simp at h
  constructor
  · rintro (⟨e, he⟩ | ⟨e, he⟩ | herr)
    · subst he
      simp [startup]
    · subst he
      cases tlsKey with
      | error e' => simp [startup]
      | ok u => simp [startup]
    · cases tlsKey with
      | error e' => simp [startup]
      | ok u =>
        cases tlsCert with
        | error e' => simp [startup]
        | ok u' =>
          cases hm : (loadModel fsDirs fsFiles download loadGraph).2 with
          | none => exact absurd hm herr
          | some e' =>
            simp only [startup, hm]
            intro hmem
            rcases List.mem_cons.mp hmem with h | h
            · cases h
            · exact hno h
  · intro hmem
    cases tlsKey with
    | error e => simp [startup] at hmem
    | ok u =>
      cases tlsCert with
      | error e => simp [startup] at hmem
      | ok u' =>
        cases hm : (loadModel fsDirs fsFiles download loadGraph).2 with
        | some e =>
          simp only [startup, hm] at hmem
          rcases List.mem_cons.mp hmem with h | h
          · cases h
          · exact absurd h hno
        | none =>
          have hlm : ∃ pre, (loadModel fsDirs fsFiles download loadGraph).1 =
              pre ++ [StartAction.loadGraphModel (joinModelDir MODEL_PATH)] := by
            unfold loadModel at hm ⊢
            cases hd : (downloadSeq download (MODEL_PATH :: modelWeights)).2 with
            | some e => simp [hd] at hm
            | none =>
              cases loadGraph with
              | error e => simp [hd] at hm
              | ok u'' =>
                refine ⟨(if modelDir ∈ fsDirs then [] else [StartAction.mkdirDir modelDir]) ++
                  (downloadSeq download (MODEL_PATH :: modelWeights)).1, ?_⟩
                simp [hd, List.append_assoc]
          obtain ⟨pre, hpre⟩ := hlm
          refine ⟨StartAction.createServer :: pre,
            [StartAction.setAppModel, StartAction.registerRoutes, StartAction.serverStart], ?_, ?_⟩
          · simp only [startup, hm, hpre]
            simp
          · simp

/-- Witness for C8: with an unreadable TLS key the startup sequence
never reaches `server.start`; and in a startup where everything
succeeds, the model load action occurs strictly before `server.start`. -/
theorem startup_never_serves_without_model_witness :
    StartAction.serverStart ∉
      startup (Except.error ⟨"Error", "ENOENT cert key.pem", none⟩) (Except.ok ())
        [] [] (fun _ => Except.ok ()) (Except.ok ()) ∧
    (∃ l₁ l₂, startup (Except.ok ()) (Except.ok ()) [] [] (fun _ => Except.ok ())
          (Except.ok ()) =
        l₁ ++ StartAction.loadGraphModel (joinModelDir MODEL_PATH) :: l₂ ∧
      StartAction.serverStart ∈ l₂) :=
  ⟨(startup_never_serves_without_model (Except.error ⟨"Error", "ENOENT cert key.pem", none⟩)
      (Except.ok ()) [] [] (fun _ => Except.ok ()) (Except.ok ())).1
      (Or.inl ⟨⟨"Error", "ENOENT cert key.pem", none⟩, rfl⟩),
   (startup_never_serves_without_model (Except.ok ()) (Except.ok ()) [] []
      (fun _ => Except.ok ()) (Except.ok ())).2 (by decide)⟩

end CloudRun
